import Mathlib

/-!
Shallow embedding of the payment gate of the sBTC DeFi Intelligence API
(src/src/index.ts): token-type selection, 402 challenge construction,
on-chain payment verification, and the priced-endpoint handler pattern.

JavaScript semantics that matter here and are modelled explicitly:
  * `a || b` on strings treats both `undefined` and `""` as falsy;
  * `a || b` and `cond && a` on numbers treat both `undefined` and `0` as
    falsy;
  * `try/catch` around `fetch`/`response.json()` folds any thrown error
    (network failure, malformed body) into a caught value.
Optional values (`string | undefined`, optional parameters) are `Option`;
timestamps are naturals counting milliseconds.
-/

namespace SbtcDefiIntel

/-- The `CONTRACT` configuration object (src/src/index.ts lines 8-16). -/
structure ContractConfig where
  address : String
  name : String
  standardPrice : Nat
  premiumPrice : Nat
  standardPriceSbtc : Nat
  premiumPriceSbtc : Nat
  recipient : String
deriving DecidableEq, Repr

def CONTRACT : ContractConfig :=
  { address := "SPP5ZMH9NQDFD2K5CEQZ6P02AP8YPWMQ75TJW20M"
    name := "simple-oracle"
    standardPrice := 2000
    premiumPrice := 5000
    standardPriceSbtc := 2
    premiumPriceSbtc := 5
    recipient := "SPKH9AWG0ENZ87J1X0PBD4HETP22G8W22AFNVF8K" }

/-- The `SBTC` contract-address pair (src/src/index.ts lines 31-34). -/
structure SbtcContracts where
  token : String
  deposit : String
deriving DecidableEq, Repr

def SBTC : SbtcContracts :=
  { token := "SM3VDXK3WZZSA84XXFKAFAF15NNZX32CTSG82JFQ4.sbtc-token"
    deposit := "SM3KNVZS30WM7F89SXKVVFY4SN9RMPZZ9FX929N0V.sbtc-deposit" }

/-- The type `PaymentTokenType = 'STX' | 'sBTC'` (src/src/index.ts
line 18). -/
inductive PaymentTokenType where
  | STX
  | sBTC
deriving DecidableEq, Repr

/-- JavaScript falsiness of a possibly-undefined string: `undefined` and
`""` are falsy. -/
def jsFalsyStr (s : Option String) : Bool :=
  match s with
  | none => true
  | some v => v = ""

/-- JavaScript `a || b` on possibly-undefined strings. -/
def jsOrStr (a b : Option String) : Option String :=
  if jsFalsyStr a then b else a

/-- JavaScript `a || b` where `a` is a possibly-undefined number and `b` is
a number: `undefined` and `0` are falsy. -/
def jsOrNat (a : Option Nat) (b : Nat) : Nat :=
  match a with
  | none => b
  | some n => if n = 0 then b else n

/-- JavaScript truthiness of a possibly-undefined number. -/
def jsTruthyNat (a : Option Nat) : Bool :=
  match a with
  | none => false
  | some n => n ≠ 0

/-- JavaScript `.toUpperCase()`, modelled as character-wise ASCII
uppercasing. -/
def toUpperCase (s : String) : String :=
  String.mk (s.data.map Char.toUpper)

/-- The function `getPaymentTokenType` (src/src/index.ts lines 20-25):
`(headerToken || queryToken || 'STX').toUpperCase()` compared with
`'SBTC'`. The header and query arguments are the raw
`X-PAYMENT-TOKEN-TYPE` header and `tokenType` query parameter. -/
def getPaymentTokenType (headerToken queryToken : Option String) :
    PaymentTokenType :=
  let tokenStr :=
    toUpperCase ((jsOrStr (jsOrStr headerToken queryToken) (some "STX")).getD "STX")
  if tokenStr = "SBTC" then .sBTC else .STX

/-- The `payment` block of the STX-denominated 402 body
(src/src/index.ts lines 105-111). -/
structure StxPaymentBlock where
  contract : String
  callFunction : String
  price : Nat
  token : String
  recipient : String
deriving DecidableEq, Repr

/-- One entry of the `paymentOptions` block (src/src/index.ts
lines 112-115). -/
structure PaymentOptionEntry where
  price : Nat
  method : String
deriving DecidableEq, Repr

/-- The branch-specific part of the 402 body: either the sBTC-denominated
challenge (src/src/index.ts lines 89-100) or the STX-denominated one
(lines 103-121). -/
inductive ChallengeBody where
  | sbtcBody (maxAmountRequired : String) (payTo : String)
      (tokenType : String) (tokenContract : SbtcContracts)
      (instructions : List String)
  | stxBody (payment : StxPaymentBlock)
      (stxOption sbtcOption : PaymentOptionEntry)
      (sbtcOptionContract : SbtcContracts)
      (instructions : List String)
deriving DecidableEq, Repr

/-- A 402 challenge response: HTTP status plus the JSON body's shared
fields (`baseResponse`, src/src/index.ts lines 70-86) and the
branch-specific fields. `expiresAtMs` holds the epoch milliseconds that
line 68 formats with `toISOString()`. -/
structure Challenge where
  status : Nat
  error : String
  code : String
  resource : String
  nonce : String
  expiresAtMs : Nat
  network : String
  body : ChallengeBody
deriving DecidableEq, Repr

/-- The expression `Math.ceil(price / 1000)` on a natural: exact ceiling
division. -/
def ceilDiv1000 (price : Nat) : Nat :=
  (price + 999) / 1000

/-- The function `paymentRequired` (src/src/index.ts lines 65-122).
Here `nonce` stands for
the fresh `crypto.randomUUID()` of line 67 and `nowMs` for `Date.now()` of
line 68. The branch condition is the JavaScript
`tokenType === 'sBTC' && sbtcPrice`, so a supplied `sbtcPrice` of `0` is
falsy and selects the STX branch, as does an absent one. -/
def paymentRequired (headerToken queryToken : Option String)
    (resource : String) (price : Nat) (sbtcPrice : Option Nat)
    (nonce : String) (nowMs : Nat) : Challenge :=
  let tokenType := getPaymentTokenType headerToken queryToken
  let expiresAtMs := nowMs + 10 * 60 * 1000
  if tokenType = .sBTC ∧ jsTruthyNat sbtcPrice then
    { status := 402
      error := "Payment Required"
      code := "PAYMENT_REQUIRED"
      resource := resource
      nonce := nonce
      expiresAtMs := expiresAtMs
      network := "mainnet"
      body := .sbtcBody (toString (sbtcPrice.getD 0)) CONTRACT.recipient
        "sBTC" SBTC
        ["1. Sign an sBTC transfer transaction",
         "2. Include the signed transaction hex in X-Payment header",
         "3. Transaction will be broadcast and verified"] }
  else
    { status := 402
      error := "Payment Required"
      code := "PAYMENT_REQUIRED"
      resource := resource
      nonce := nonce
      expiresAtMs := expiresAtMs
      network := "mainnet"
      body := .stxBody
        { contract := CONTRACT.address ++ "." ++ CONTRACT.name
          callFunction := "call-with-stx"
          price := price
          token := "STX"
          recipient := CONTRACT.recipient }
        { price := price, method := "contract-call" }
        { price := jsOrNat sbtcPrice (ceilDiv1000 price)
          method := "direct-transfer" }
        SBTC
        ["1. Call the contract with STX payment (or use ?tokenType=sBTC for sBTC)",
         "2. Wait for transaction confirmation",
         "3. Retry request with X-Payment header containing txid"] }

/-- The outcome of the ledger lookup `fetch(HIRO_API/extended/v1/tx/..)`
plus `response.json()` as `verifyPayment` observes it:
  * `fetchFailed e` — `fetch` or `response.json()` threw (network error,
    malformed or non-JSON body); the `catch` block receives `e`;
  * `notOk` — the HTTP response arrived with `response.ok` false (no such
    transaction);
  * `txFound` — a JSON transaction record with the fields `verifyPayment`
    probes: `tx_status`, `tx_type`, `contract_call?.contract_id` (absent
    when the record has no `contract_call` object), `sender_address`. -/
inductive LedgerResponse where
  | fetchFailed (e : String)
  | notOk
  | txFound (tx_status tx_type : String) (contract_id : Option String)
      (sender_address : String)
deriving DecidableEq, Repr

/-- The result shape of `verifyPayment`: valid flag, optional error
string, optional caller (src/src/index.ts line 125). -/
structure VerificationResult where
  valid : Bool
  error : Option String
  caller : Option String
deriving DecidableEq, Repr

/-- The expected contract string built on src/src/index.ts line 135. -/
def expectedContract : String :=
  CONTRACT.address ++ "." ++ CONTRACT.name

/-- Txid normalization of src/src/index.ts line 127. -/
def normalizeTxid (txid : String) : String :=
  if txid.startsWith "0x" then txid else "0x" ++ txid

/-- The function `verifyPayment` (src/src/index.ts lines 125-142). The
external ledger
is a function from the normalized txid to the observed `LedgerResponse`. -/
def verifyPayment (ledger : String → LedgerResponse) (txid : String) :
    VerificationResult :=
  match ledger (normalizeTxid txid) with
  | .fetchFailed e =>
      { valid := false, error := some ("Verification failed: " ++ e),
        caller := none }
  | .notOk =>
      { valid := false, error := some "Transaction not found",
        caller := none }
  | .txFound tx_status tx_type contract_id sender_address =>
      if tx_status ≠ "success" then
        { valid := false,
          error := some ("Transaction status: " ++ tx_status),
          caller := none }
      else if tx_type ≠ "contract_call" then
        { valid := false, error := some "Not a contract call",
          caller := none }
      else if contract_id ≠ some expectedContract then
        { valid := false, error := some "Wrong contract", caller := none }
      else
        { valid := true, error := none, caller := some sender_address }

/-- The `tokenType` field of the 402 body (present only in the
sBTC-denominated branch). -/
def Challenge.tokenTypeField (ch : Challenge) : Option String :=
  match ch.body with
  | .sbtcBody _ _ t _ _ => some t
  | .stxBody _ _ _ _ _ => none

/-- The `maxAmountRequired` field of the 402 body (sBTC branch only). -/
def Challenge.maxAmountRequiredField (ch : Challenge) : Option String :=
  match ch.body with
  | .sbtcBody amt _ _ _ _ => some amt
  | .stxBody _ _ _ _ _ => none

/-- The `tokenContract` field of the 402 body (sBTC branch only). -/
def Challenge.tokenContractField (ch : Challenge) : Option SbtcContracts :=
  match ch.body with
  | .sbtcBody _ _ _ tc _ => some tc
  | .stxBody _ _ _ _ _ => none

/-- The `instructions` list of the 402 body (either branch). -/
def Challenge.instructionsField (ch : Challenge) : List String :=
  match ch.body with
  | .sbtcBody _ _ _ _ ins => ins
  | .stxBody _ _ _ _ ins => ins

/-- The `payment` block of the 402 body (STX branch only). -/
def Challenge.paymentBlock (ch : Challenge) : Option StxPaymentBlock :=
  match ch.body with
  | .sbtcBody _ _ _ _ _ => none
  | .stxBody p _ _ _ _ => some p

/-- The field `payment.price` of the 402 body (STX branch only). -/
def Challenge.paymentPrice (ch : Challenge) : Option Nat :=
  (ch.paymentBlock).map StxPaymentBlock.price

/-- The entry `paymentOptions.stx` of the 402 body (STX branch only). -/
def Challenge.stxOption (ch : Challenge) : Option PaymentOptionEntry :=
  match ch.body with
  | .sbtcBody _ _ _ _ _ => none
  | .stxBody _ s _ _ _ => some s

/-- The entry `paymentOptions.sbtc` of the 402 body (STX branch only). -/
def Challenge.sbtcOption (ch : Challenge) : Option PaymentOptionEntry :=
  match ch.body with
  | .sbtcBody _ _ _ _ _ => none
  | .stxBody _ _ s _ _ => some s

/-- The priced endpoints and the arguments their handlers pass to
`paymentRequired` (src/src/index.ts lines 978, 1029, 1079, 1192, 1283).
Every call site supplies both a native price and a pegged-asset price. -/
structure PricedEndpoint where
  resource : String
  price : Nat
  sbtcPrice : Nat
deriving DecidableEq, Repr

def pricedEndpoints : List PricedEndpoint :=
  [ { resource := "/yield-opportunities", price := CONTRACT.standardPrice,
      sbtcPrice := CONTRACT.standardPriceSbtc },
    { resource := "/peg-health", price := CONTRACT.standardPrice,
      sbtcPrice := CONTRACT.standardPriceSbtc },
    { resource := "/simulate", price := CONTRACT.premiumPrice,
      sbtcPrice := CONTRACT.premiumPriceSbtc },
    { resource := "/agent-intel", price := CONTRACT.premiumPrice,
      sbtcPrice := CONTRACT.premiumPriceSbtc },
    { resource := "/alpha", price := CONTRACT.premiumPrice,
      sbtcPrice := CONTRACT.premiumPriceSbtc } ]

/-- An upstream I/O call a handler can issue: the Hiro transaction lookup
inside `verifyPayment`, and the `calculatePegHealth`/`fetchSbtcMetrics`
data fetches of the `/peg-health` handler. -/
inductive UpstreamCall where
  | ledgerLookup
  | pegHealthData
  | sbtcMetricsData
deriving DecidableEq, Repr

/-- A priced handler's HTTP response: a 402 challenge, the 403
`{ error: 'Payment verification failed', details }` rejection, or the 200
payload carrying `paymentVerified: true` and the verified caller. -/
inductive HandlerResponse where
  | challenge (ch : Challenge)
  | rejected (details : Option String)
  | payload (caller : Option String)
deriving DecidableEq, Repr

def HandlerResponse.httpStatus : HandlerResponse → Nat
  | .challenge ch => ch.status
  | .rejected _ => 403
  | .payload _ => 200

/-- The `code` field of a 402 challenge response, when the response is
one. -/
def HandlerResponse.challengeCode : HandlerResponse → Option String
  | .challenge ch => some ch.code
  | .rejected _ => none
  | .payload _ => none

/-- The field `payment.price` of a 402 challenge response, when the
response is one
and its body has the STX-denominated shape. -/
def HandlerResponse.challengePaymentPrice : HandlerResponse → Option Nat
  | .challenge ch => ch.paymentPrice
  | .rejected _ => none
  | .payload _ => none

/-- The `GET /peg-health` handler (src/src/index.ts lines 1026-1070),
instrumented with the list of upstream calls it issues, in order. The
guard is the JavaScript `if (!paymentTxid)`, so an absent or empty
`X-Payment` header yields the challenge. On the verification path the
ledger lookup happens first; the peg-health and sBTC-metrics fetches are
issued only after a valid verdict. -/
def pegHealthHandler (xPayment headerToken queryToken : Option String)
    (ledger : String → LedgerResponse) (nonce : String) (nowMs : Nat) :
    HandlerResponse × List UpstreamCall :=
  if jsFalsyStr xPayment then
    (.challenge (paymentRequired headerToken queryToken "/peg-health"
        CONTRACT.standardPrice (some CONTRACT.standardPriceSbtc) nonce nowMs),
      [])
  else
    let verification := verifyPayment ledger (xPayment.getD "")
    if verification.valid = false then
      (.rejected verification.error, [.ledgerLookup])
    else
      (.payload verification.caller,
        [.ledgerLookup, .pegHealthData, .sbtcMetricsData])

/-- A ledger on which every lookup returns a non-ok HTTP response. -/
def ledgerEmpty : String → LedgerResponse := fun _ => .notOk

/-- A ledger on which every lookup throws a network error. -/
def ledgerDown : String → LedgerResponse := fun _ => .fetchFailed "network error"

/-- A ledger holding a still-pending contract call to the configured
contract. -/
def ledgerPendingTx : String → LedgerResponse :=
  fun _ => .txFound "pending" "contract_call" (some expectedContract)
    "SP2TESTSENDER"

/-- A ledger holding a successful plain token transfer (no contract
call). -/
def ledgerTransferTx : String → LedgerResponse :=
  fun _ => .txFound "success" "token_transfer" none "SP2TESTSENDER"

/-- A ledger holding a successful contract call to a different
contract. -/
def ledgerWrongContractTx : String → LedgerResponse :=
  fun _ => .txFound "success" "contract_call" (some "SP000.other-contract")
    "SP2TESTSENDER"

/-- A ledger holding a successful contract call to exactly the configured
payment contract. -/
def ledgerPaidTx : String → LedgerResponse :=
  fun _ => .txFound "success" "contract_call" (some expectedContract)
    "SP2TESTSENDER"

/-- The token-selection rule exactly as the specification words it: the
header hint takes precedence over the query hint whenever the header is
present (empty or not); a hint case-insensitively equal to the ticker
yields `PeggedAsset`/`sBTC`; everything else, absent included, yields
`Native`/`STX`. Written for comparison with `getPaymentTokenType`; it is
not a translation of the source. -/
def specTokenTypeOfHint (v : Option String) : PaymentTokenType :=
  match v with
  | some s => if toUpperCase s = "SBTC" then .sBTC else .STX
  | none => .STX

def specSelectTokenType (headerToken queryToken : Option String) :
    PaymentTokenType :=
  match headerToken with
  | some h => specTokenTypeOfHint (some h)
  | none => specTokenTypeOfHint queryToken

/-- The amended selection rule: the header takes precedence only when it
is non-empty; an absent or empty header falls back to the query hint. -/
def specSelectTokenTypeAmended (headerToken queryToken : Option String) :
    PaymentTokenType :=
  specTokenTypeOfHint (if jsFalsyStr headerToken then queryToken else headerToken)

/-- Two strings differ when one is an append whose left part already
disagrees with the other string on the first `n` characters. -/
theorem append_ne_of_take_ne (a b c : String) (n : Nat)
    (h1 : n ≤ a.data.length)
    (h2 : List.take n a.data ≠ List.take n c.data) :
    a ++ b ≠ c := by
  intro h
  apply h2
  have hd : a.data ++ b.data = c.data := by
    rw [← String.data_append, h]
  rw [← hd, List.take_append_of_le_length h1]

/-- Two appends differ when their left parts disagree on the first `n`
characters. -/
theorem append_ne_append_of_take_ne (a b c d : String) (n : Nat)
    (h1 : n ≤ a.data.length) (h2 : n ≤ c.data.length)
    (h3 : List.take n a.data ≠ List.take n c.data) :
    a ++ b ≠ c ++ d := by
  intro h
  apply h3
  have hd : a.data ++ b.data = c.data ++ d.data := by
    rw [← String.data_append, ← String.data_append, h]
  calc List.take n a.data
      = List.take n (a.data ++ b.data) :=
        (List.take_append_of_le_length h1).symm
    _ = List.take n (c.data ++ d.data) := by rw [hd]
    _ = List.take n c.data := List.take_append_of_le_length h2

/-- C1: for every proof token, `verifyPayment` returns `valid := false`
with a distinct, non-empty failure reason in each of the four failure
cases — lookup reports no such transaction (or the lookup itself fails),
status not exactly `"success"`, type not a contract call, and call target
different from the configured payment contract — and the checks apply in
that order: the status reason needs no assumption on type or target, the
type reason fires only once the status check passed, and the target
reason only once status and type passed. -/
theorem verifyPayment_failure_cases (ledger : String → LedgerResponse)
    (txid : String) :
    (ledger (normalizeTxid txid) = LedgerResponse.notOk →
      verifyPayment ledger txid =
        { valid := false, error := some "Transaction not found",
          caller := none }) ∧
    (∀ e, ledger (normalizeTxid txid) = LedgerResponse.fetchFailed e →
      verifyPayment ledger txid =
        { valid := false, error := some ("Verification failed: " ++ e),
          caller := none }) ∧
    (∀ st ty cid sender,
      ledger (normalizeTxid txid) = LedgerResponse.txFound st ty cid sender →
      st ≠ "success" →
      verifyPayment ledger txid =
        { valid := false, error := some ("Transaction status: " ++ st),
          caller := none }) ∧
    (∀ st ty cid sender,
      ledger (normalizeTxid txid) = LedgerResponse.txFound st ty cid sender →
      st = "success" → ty ≠ "contract_call" →
      verifyPayment ledger txid =
        { valid := false, error := some "Not a contract call",
          caller := none }) ∧
    (∀ st ty cid sender,
      ledger (normalizeTxid txid) = LedgerResponse.txFound st ty cid sender →
      st = "success" → ty = "contract_call" → cid ≠ some expectedContract →
      verifyPayment ledger txid =
        { valid := false, error := some "Wrong contract", caller := none }) ∧
    (∀ st e : String,
      ("Transaction not found" : String) ≠ "" ∧
      "Transaction status: " ++ st ≠ "" ∧
      ("Not a contract call" : String) ≠ "" ∧
      ("Wrong contract" : String) ≠ "" ∧
      "Verification failed: " ++ e ≠ "" ∧
      "Transaction status: " ++ st ≠ "Transaction not found" ∧
      "Transaction status: " ++ st ≠ "Not a contract call" ∧
      "Transaction status: " ++ st ≠ "Wrong contract" ∧
      ("Transaction not found" : String) ≠ "Not a contract call" ∧
      ("Transaction not found" : String) ≠ "Wrong contract" ∧
      ("Not a contract call" : String) ≠ "Wrong contract" ∧
      "Verification failed: " ++ e ≠ "Transaction not found" ∧
      "Verification failed: " ++ e ≠ "Transaction status: " ++ st ∧
      "Verification failed: " ++ e ≠ "Not a contract call" ∧
      "Verification failed: " ++ e ≠ "Wrong contract") := by
  refine ⟨?_, ?_, ?_, ?_, ?_, ?_⟩
  · intro h; simp [verifyPayment, h]
  · intro e h; simp [verifyPayment, h]
  · intro st ty cid sender h hst; simp [verifyPayment, h, hst]
  · intro st ty cid sender h hst hty; simp [verifyPayment, h, hst, hty]
  · intro st ty cid sender h hst hty hcid
    simp [verifyPayment, h, hst, hty, hcid]
  · intro st e
    refine ⟨by decide,
      append_ne_of_take_ne _ _ _ 1 (by decide) (by decide),
      by decide, by decide,
      append_ne_of_take_ne _ _ _ 1 (by decide) (by decide),
      append_ne_of_take_ne _ _ _ 13 (by decide) (by decide),
      append_ne_of_take_ne _ _ _ 1 (by decide) (by decide),
      append_ne_of_take_ne _ _ _ 1 (by decide) (by decide),
      by decide, by decide, by decide,
      append_ne_of_take_ne _ _ _ 1 (by decide) (by decide),
      append_ne_append_of_take_ne _ _ _ _ 1 (by decide) (by decide)
        (by decide),
      append_ne_of_take_ne _ _ _ 1 (by decide) (by decide),
      append_ne_of_take_ne _ _ _ 1 (by decide) (by decide)⟩

theorem verifyPayment_failure_cases_witness :
    verifyPayment ledgerEmpty "ab" =
      { valid := false, error := some "Transaction not found",
        caller := none } ∧
    verifyPayment ledgerDown "ab" =
      { valid := false,
        error := some ("Verification failed: " ++ "network error"),
        caller := none } ∧
    verifyPayment ledgerPendingTx "ab" =
      { valid := false, error := some ("Transaction status: " ++ "pending"),
        caller := none } ∧
    verifyPayment ledgerTransferTx "ab" =
      { valid := false, error := some "Not a contract call",
        caller := none } ∧
    verifyPayment ledgerWrongContractTx "ab" =
      { valid := false, error := some "Wrong contract", caller := none } :=
  ⟨(verifyPayment_failure_cases ledgerEmpty "ab").1 rfl,
   (verifyPayment_failure_cases ledgerDown "ab").2.1 "network error" rfl,
   (verifyPayment_failure_cases ledgerPendingTx "ab").2.2.1 "pending"
     "contract_call" (some expectedContract) "SP2TESTSENDER" rfl (by decide),
   (verifyPayment_failure_cases ledgerTransferTx "ab").2.2.2.1 "success"
     "token_transfer" none "SP2TESTSENDER" rfl rfl (by decide),
   (verifyPayment_failure_cases ledgerWrongContractTx "ab").2.2.2.2.1
     "success" "contract_call" (some "SP000.other-contract") "SP2TESTSENDER"
     rfl rfl rfl (by decide)⟩

/-- C2: when the ledger lookup succeeds with a transaction record,
`verifyPayment` returns `valid := true` iff the status is exactly
`"success"`, the type is a contract call, and the call target equals the
configured payment contract; and in that case the result carries the
transaction's sender address as the payer identity. -/
theorem verifyPayment_valid_iff (ledger : String → LedgerResponse)
    (txid st ty sender : String) (cid : Option String)
    (h : ledger (normalizeTxid txid) = LedgerResponse.txFound st ty cid sender) :
    ((verifyPayment ledger txid).valid = true ↔
      st = "success" ∧ ty = "contract_call" ∧ cid = some expectedContract) ∧
    (st = "success" → ty = "contract_call" → cid = some expectedContract →
      verifyPayment ledger txid =
        { valid := true, error := none, caller := some sender }) := by
  by_cases h1 : st = "success"
  · by_cases h2 : ty = "contract_call"
    · by_cases h3 : cid = some expectedContract
      · simp [verifyPayment, h, h1, h2, h3]
      · simp [verifyPayment, h, h1, h2, h3]
    · simp [verifyPayment, h, h1, h2]
  · simp [verifyPayment, h, h1]

theorem verifyPayment_valid_iff_witness :
    (verifyPayment ledgerPaidTx "ab").valid = true ∧
    verifyPayment ledgerPaidTx "ab" =
      { valid := true, error := none, caller := some "SP2TESTSENDER" } :=
  have h := verifyPayment_valid_iff ledgerPaidTx "ab" "success"
    "contract_call" "SP2TESTSENDER" (some expectedContract) rfl
  ⟨h.1.mpr ⟨rfl, rfl, rfl⟩, h.2 rfl rfl rfl⟩

/-- C3: `verifyPayment` always reaches a definite verdict — for every
proof token and every observable ledger outcome, including a thrown
network error or a malformed (non-JSON) body, which the `try/catch` folds
into `LedgerResponse.fetchFailed`, the result is either `valid := true`
or `valid := false` with a non-empty reason string. -/
theorem verifyPayment_total_verdict (ledger : String → LedgerResponse)
    (txid : String) :
    (verifyPayment ledger txid).valid = true ∨
    ((verifyPayment ledger txid).valid = false ∧
      ∃ s, (verifyPayment ledger txid).error = some s ∧ s ≠ "") := by
  cases h : ledger (normalizeTxid txid) with
  | fetchFailed e =>
      exact Or.inr ⟨by simp [verifyPayment, h],
        "Verification failed: " ++ e, by simp [verifyPayment, h],
        append_ne_of_take_ne _ _ _ 1 (by decide) (by decide)⟩
  | notOk =>
      exact Or.inr ⟨by simp [verifyPayment, h], "Transaction not found",
        by simp [verifyPayment, h], by decide⟩
  | txFound st ty cid sender =>
      by_cases h1 : st = "success"
      · by_cases h2 : ty = "contract_call"
        · by_cases h3 : cid = some expectedContract
          · exact Or.inl (by simp [verifyPayment, h, h1, h2, h3])
          · exact Or.inr ⟨by simp [verifyPayment, h, h1, h2, h3],
              "Wrong contract", by simp [verifyPayment, h, h1, h2, h3],
              by decide⟩
        · exact Or.inr ⟨by simp [verifyPayment, h, h1, h2],
            "Not a contract call", by simp [verifyPayment, h, h1, h2],
            by decide⟩
      · exact Or.inr ⟨by simp [verifyPayment, h, h1],
          "Transaction status: " ++ st, by simp [verifyPayment, h, h1],
          append_ne_of_take_ne _ _ _ 1 (by decide) (by decide)⟩

/-- C4 fails as stated: with an empty (but present) header hint and a
query hint of `"sbtc"`, the code resolves to the pegged asset, while the
claimed rule — header takes precedence over the query for every
combination — would resolve to the native token, because an empty header
is not case-insensitively equal to the ticker. -/
theorem getPaymentTokenType_precedence_cex :
    getPaymentTokenType (some "") (some "sbtc") = PaymentTokenType.sBTC ∧
    specSelectTokenType (some "") (some "sbtc") = PaymentTokenType.STX ∧
    getPaymentTokenType (some "") (some "sbtc") ≠
      specSelectTokenType (some "") (some "sbtc") := by
  decide

/-- C4 (amended): `getPaymentTokenType` is a pure total function that
follows the selection rule with header precedence restricted to non-empty
header values — a non-empty header wins over the query, an absent or
empty header falls back to the query, a hint case-insensitively equal to
the ticker `"sBTC"` yields the pegged asset, and every other hint
(absent included) yields the native token. -/
theorem getPaymentTokenType_eq_amended_rule
    (headerToken queryToken : Option String) :
    getPaymentTokenType headerToken queryToken =
      specSelectTokenTypeAmended headerToken queryToken := by
  rcases headerToken with _ | h
  · rcases queryToken with _ | q
    · decide
    · by_cases hq : q = ""
      · subst hq; decide
      · simp [getPaymentTokenType, specSelectTokenTypeAmended,
          specTokenTypeOfHint, jsOrStr, jsFalsyStr, hq]
  · by_cases hh : h = ""
    · subst hh
      rcases queryToken with _ | q
      · decide
      · by_cases hq : q = ""
        · subst hq; decide
        · simp [getPaymentTokenType, specSelectTokenTypeAmended,
            specTokenTypeOfHint, jsOrStr, jsFalsyStr, hq]
    · simp [getPaymentTokenType, specSelectTokenTypeAmended,
        specTokenTypeOfHint, jsOrStr, jsFalsyStr, hh]

/-- C5: for every priced endpoint of the app and every request whose
resolved token type is the pegged asset, the emitted challenge is a 402
denominated in the pegged asset: `tokenType` is `"sBTC"`, the amount is
the endpoint's configured pegged-asset price, the body carries the sBTC
token/deposit contract identifiers, and the instruction list has exactly
3 steps. -/
theorem paymentRequired_sbtc_branch (ep : PricedEndpoint)
    (hep : ep ∈ pricedEndpoints)
    (headerToken queryToken : Option String) (nonce : String) (nowMs : Nat)
    (hsel : getPaymentTokenType headerToken queryToken =
      PaymentTokenType.sBTC) :
    (paymentRequired headerToken queryToken ep.resource ep.price
      (some ep.sbtcPrice) nonce nowMs).status = 402 ∧
    (paymentRequired headerToken queryToken ep.resource ep.price
      (some ep.sbtcPrice) nonce nowMs).tokenTypeField = some "sBTC" ∧
    (paymentRequired headerToken queryToken ep.resource ep.price
      (some ep.sbtcPrice) nonce nowMs).maxAmountRequiredField =
      some (toString ep.sbtcPrice) ∧
    (paymentRequired headerToken queryToken ep.resource ep.price
      (some ep.sbtcPrice) nonce nowMs).tokenContractField = some SBTC ∧
    (paymentRequired headerToken queryToken ep.resource ep.price
      (some ep.sbtcPrice) nonce nowMs).instructionsField.length = 3 := by
  have hpos : ep.sbtcPrice ≠ 0 := by
    fin_cases hep <;> decide
  simp [paymentRequired, hsel, jsTruthyNat, hpos, Challenge.tokenTypeField,
    Challenge.maxAmountRequiredField, Challenge.tokenContractField,
    Challenge.instructionsField]

theorem paymentRequired_sbtc_branch_witness :
    (paymentRequired none (some "sBTC") "/peg-health" 2000 (some 2) "n"
      0).status = 402 ∧
    (paymentRequired none (some "sBTC") "/peg-health" 2000 (some 2) "n"
      0).tokenTypeField = some "sBTC" ∧
    (paymentRequired none (some "sBTC") "/peg-health" 2000 (some 2) "n"
      0).maxAmountRequiredField = some "2" ∧
    (paymentRequired none (some "sBTC") "/peg-health" 2000 (some 2) "n"
      0).tokenContractField = some SBTC ∧
    (paymentRequired none (some "sBTC") "/peg-health" 2000 (some 2) "n"
      0).instructionsField.length = 3 := by
  have h := paymentRequired_sbtc_branch
    { resource := "/peg-health", price := 2000, sbtcPrice := 2 }
    (by decide) none (some "sBTC") "n" 0 (by decide)
  exact ⟨h.1, h.2.1, h.2.2.1, h.2.2.2.1, h.2.2.2.2⟩

/-- C6: every challenge `paymentRequired` produces — for any hints,
resource, prices, nonce and creation time, hence in both the
pegged-asset and the native branch — is a 402 carrying the generated
nonce and an expiry of exactly creation time + 600 seconds
(600000 milliseconds). -/
theorem paymentRequired_nonce_expiry (headerToken queryToken : Option String)
    (resource : String) (price : Nat) (sbtcPrice : Option Nat)
    (nonce : String) (nowMs : Nat) :
    (paymentRequired headerToken queryToken resource price sbtcPrice nonce
      nowMs).expiresAtMs = nowMs + 600 * 1000 ∧
    (paymentRequired headerToken queryToken resource price sbtcPrice nonce
      nowMs).nonce = nonce ∧
    (paymentRequired headerToken queryToken resource price sbtcPrice nonce
      nowMs).status = 402 := by
  by_cases hb : getPaymentTokenType headerToken queryToken =
      PaymentTokenType.sBTC ∧ jsTruthyNat sbtcPrice
  · simp [paymentRequired, hb]
  · simp [paymentRequired, hb]

/-- C7: a `GET /peg-health` request with no `X-Payment` header whose
token-type hints resolve to the native token gets HTTP 402 with
`code = "PAYMENT_REQUIRED"` and `payment.price = 2000`, and the handler
issues no upstream call at all — no ledger lookup, no peg-health data
fetch, no sBTC-metrics fetch — before returning the challenge. -/
theorem pegHealth_unauthenticated_challenge
    (headerToken queryToken : Option String)
    (ledger : String → LedgerResponse) (nonce : String) (nowMs : Nat)
    (hsel : getPaymentTokenType headerToken queryToken =
      PaymentTokenType.STX) :
    (pegHealthHandler none headerToken queryToken ledger nonce
      nowMs).1.httpStatus = 402 ∧
    (pegHealthHandler none headerToken queryToken ledger nonce
      nowMs).1.challengeCode = some "PAYMENT_REQUIRED" ∧
    (pegHealthHandler none headerToken queryToken ledger nonce
      nowMs).1.challengePaymentPrice = some 2000 ∧
    (pegHealthHandler none headerToken queryToken ledger nonce
      nowMs).2 = [] := by
  simp [pegHealthHandler, jsFalsyStr, paymentRequired, hsel,
    HandlerResponse.httpStatus, HandlerResponse.challengeCode,
    HandlerResponse.challengePaymentPrice, Challenge.paymentPrice,
    Challenge.paymentBlock, CONTRACT]

theorem pegHealth_unauthenticated_challenge_witness :
    (pegHealthHandler none none none ledgerEmpty "n" 0).1.httpStatus =
      402 ∧
    (pegHealthHandler none none none ledgerEmpty "n" 0).1.challengeCode =
      some "PAYMENT_REQUIRED" ∧
    (pegHealthHandler none none none ledgerEmpty "n"
      0).1.challengePaymentPrice = some 2000 ∧
    (pegHealthHandler none none none ledgerEmpty "n" 0).2 = [] :=
  pegHealth_unauthenticated_challenge none none ledgerEmpty "n" 0
    (by decide)

/-- C8: verification is repeatable — two calls of `verifyPayment` with
the same proof token, on each of which the ledger reports the same
successful contract call to the configured contract, both return
`valid := true` and the very same result; no token is consumed and no
state distinguishes the second call from the first (the embedding of
`verifyPayment` has no state to mutate). -/
theorem verifyPayment_repeatable (ledger1 ledger2 : String → LedgerResponse)
    (txid sender : String)
    (h1 : ledger1 (normalizeTxid txid) =
      LedgerResponse.txFound "success" "contract_call"
        (some expectedContract) sender)
    (h2 : ledger2 (normalizeTxid txid) =
      LedgerResponse.txFound "success" "contract_call"
        (some expectedContract) sender) :
    (verifyPayment ledger1 txid).valid = true ∧
    (verifyPayment ledger2 txid).valid = true ∧
    verifyPayment ledger1 txid = verifyPayment ledger2 txid := by
  simp [verifyPayment, h1, h2]

theorem verifyPayment_repeatable_witness :
    (verifyPayment ledgerPaidTx "ab").valid = true ∧
    (verifyPayment ledgerPaidTx "ab").valid = true ∧
    verifyPayment ledgerPaidTx "ab" = verifyPayment ledgerPaidTx "ab" :=
  verifyPayment_repeatable ledgerPaidTx ledgerPaidTx "ab" "SP2TESTSENDER"
    rfl rfl

/-- C9 fails as stated: on a native-resolved challenge request whose
endpoint supplies an explicit pegged-asset price of `0`, the emitted
`paymentOptions.sbtc.price` is the fallback `ceil(2000 / 1000) = 2`, not
the supplied `0` — JavaScript `sbtcPrice || Math.ceil(price / 1000)`
treats a supplied `0` as absent. -/
theorem paymentRequired_sbtc_fallback_cex :
    (paymentRequired none none "/peg-health" 2000 (some 0) "n"
      0).sbtcOption.map PaymentOptionEntry.price =
      some (ceilDiv1000 2000) ∧
    ceilDiv1000 2000 = 2 ∧
    (paymentRequired none none "/peg-health" 2000 (some 0) "n"
      0).sbtcOption.map PaymentOptionEntry.price ≠ some 0 := by
  decide

/-- C9 (amended): for every challenge request whose resolved token type
is the native one, the emitted 402 body carries a `paymentOptions` block
with both denominations: the native amount is the endpoint's native
price, and the pegged-asset amount equals the explicitly supplied pegged
price when a non-zero one was supplied, and otherwise — absent, or
supplied as `0`, which JavaScript treats as falsy — falls back to
`ceil(nativeAmount / 1000)`. -/
theorem paymentRequired_stx_branch_options
    (headerToken queryToken : Option String) (resource : String)
    (price : Nat) (sbtcPrice : Option Nat) (nonce : String) (nowMs : Nat)
    (hsel : getPaymentTokenType headerToken queryToken =
      PaymentTokenType.STX) :
    (paymentRequired headerToken queryToken resource price sbtcPrice nonce
      nowMs).status = 402 ∧
    (paymentRequired headerToken queryToken resource price sbtcPrice nonce
      nowMs).stxOption =
      some { price := price, method := "contract-call" } ∧
    (paymentRequired headerToken queryToken resource price sbtcPrice nonce
      nowMs).sbtcOption =
      some { price := jsOrNat sbtcPrice (ceilDiv1000 price),
             method := "direct-transfer" } := by
  simp [paymentRequired, hsel, Challenge.stxOption, Challenge.sbtcOption]

theorem paymentRequired_stx_branch_options_witness :
    (paymentRequired none none "/peg-health" 2000 none "n" 0).status =
      402 ∧
    (paymentRequired none none "/peg-health" 2000 none "n" 0).stxOption =
      some { price := 2000, method := "contract-call" } ∧
    (paymentRequired none none "/peg-health" 2000 none "n" 0).sbtcOption =
      some { price := jsOrNat none (ceilDiv1000 2000),
             method := "direct-transfer" } :=
  paymentRequired_stx_branch_options none none "/peg-health" 2000 none
    "n" 0 (by decide)

/-- C10: a present but empty token-type header behaves exactly like an
absent one — `getPaymentTokenType` falls back to the query hint (and then
to the native default) — so in particular an empty header combined with a
query hint of `"sbtc"` resolves to the pegged asset, and an empty header
with no query hint resolves to the native token. -/
theorem getPaymentTokenType_empty_header (queryToken : Option String) :
    getPaymentTokenType (some "") queryToken =
      getPaymentTokenType none queryToken ∧
    getPaymentTokenType (some "") (some "sbtc") = PaymentTokenType.sBTC ∧
    getPaymentTokenType (some "") none = PaymentTokenType.STX := by
  refine ⟨?_, by decide, by decide⟩
  simp [getPaymentTokenType, jsOrStr, jsFalsyStr]

end SbtcDefiIntel
